import Mathlib

/-!
Shallow embedding of the SSD1306 OLED driver (`src/Adafruit_SSD1306.cpp`).

Machine integers are modelled as `Nat`/`Int`; buffer bytes are `Nat`s kept
below 256 by the operations themselves (every write is an 8-bit `|||`,
`&&&` or `^^^` against a mask below 256).  The I2C bus is modelled by the
trace of transactions an operation emits: each transaction records which
stream selector byte was sent (command stream vs data stream) and the
payload bytes that followed it.
-/

/-- Modelled from the spec: command opcodes come from `Adafruit_SSD1306.h`,
which is not under `src/`; the values are the standard SSD1306 datasheet
opcodes referenced by name in the source. -/
def SSD1306_MEMORYMODE : Nat := 0x20

/-- Column-address window command opcode (header constant, see above). -/
def SSD1306_COLUMNADDR : Nat := 0x21

/-- Page-address window command opcode (header constant). -/
def SSD1306_PAGEADDR : Nat := 0x22

/-- Set-contrast command opcode (header constant). -/
def SSD1306_SETCONTRAST : Nat := 0x81

/-- Charge-pump command opcode (header constant). -/
def SSD1306_CHARGEPUMP : Nat := 0x8D

/-- Segment-remap command opcode (header constant). -/
def SSD1306_SEGREMAP : Nat := 0xA0

/-- Display-all-on-resume command opcode (header constant). -/
def SSD1306_DISPLAYALLON_RESUME : Nat := 0xA4

/-- Normal-display command opcode (header constant). -/
def SSD1306_NORMALDISPLAY : Nat := 0xA6

/-- Invert-display command opcode (header constant). -/
def SSD1306_INVERTDISPLAY : Nat := 0xA7

/-- Set-multiplex command opcode (header constant). -/
def SSD1306_SETMULTIPLEX : Nat := 0xA8

/-- Display-off command opcode (header constant). -/
def SSD1306_DISPLAYOFF : Nat := 0xAE

/-- Display-on command opcode (header constant). -/
def SSD1306_DISPLAYON : Nat := 0xAF

/-- COM-pins configuration command opcode (header constant). -/
def SSD1306_SETCOMPINS : Nat := 0xDA

/-- Display-clock-divider command opcode (header constant). -/
def SSD1306_SETDISPLAYCLOCKDIV : Nat := 0xD5

/-- Display-offset command opcode (header constant). -/
def SSD1306_SETDISPLAYOFFSET : Nat := 0xD3

/-- Precharge command opcode (header constant). -/
def SSD1306_SETPRECHARGE : Nat := 0xD9

/-- VCOM-detect command opcode (header constant). -/
def SSD1306_SETVCOMDETECT : Nat := 0xDB

/-- Start-line command opcode (header constant). -/
def SSD1306_SETSTARTLINE : Nat := 0x40

/-- COM-scan-decrement command opcode (header constant). -/
def SSD1306_COMSCANDEC : Nat := 0xC8

/-- Right horizontal scroll opcode (header constant). -/
def SSD1306_RIGHT_HORIZONTAL_SCROLL : Nat := 0x26

/-- Left horizontal scroll opcode (header constant). -/
def SSD1306_LEFT_HORIZONTAL_SCROLL : Nat := 0x27

/-- Vertical-and-right horizontal scroll opcode (header constant). -/
def SSD1306_VERTICAL_AND_RIGHT_HORIZONTAL_SCROLL : Nat := 0x29

/-- Vertical-and-left horizontal scroll opcode (header constant). -/
def SSD1306_VERTICAL_AND_LEFT_HORIZONTAL_SCROLL : Nat := 0x2A

/-- Deactivate-scroll command opcode (header constant). -/
def SSD1306_DEACTIVATE_SCROLL : Nat := 0x2E

/-- Activate-scroll command opcode (header constant). -/
def SSD1306_ACTIVATE_SCROLL : Nat := 0x2F

/-- Set-vertical-scroll-area command opcode (header constant). -/
def SSD1306_SET_VERTICAL_SCROLL_AREA : Nat := 0xA3

/-- Modelled from the spec: pixel colors come from `Adafruit_SSD1306.h`
(not under `src/`): mode CLEAR. -/
def SSD1306_BLACK : Nat := 0

/-- Pixel color, mode SET (header constant, see `SSD1306_BLACK`). -/
def SSD1306_WHITE : Nat := 1

/-- Pixel color, mode INVERT (header constant, see `SSD1306_BLACK`). -/
def SSD1306_INVERSE : Nat := 2

/-- The stream-selector byte of an I2C transaction: command stream
(`SSD1306_CMD_STREAM`) or data stream (`SSD1306_DATA_STREAM`). -/
inductive I2CStream where
  | cmd
  | data
deriving DecidableEq, BEq

/-- One bus transaction: start, address+write, stream selector, payload
bytes, stop.  Only the stream selector and the payload are recorded; the
addressing bytes are fixed by the transport. -/
structure I2CTxn where
  stream : I2CStream
  payload : List Nat
deriving DecidableEq

/-- Driver state.  `WIDTH`/`HEIGHT` are the native (unrotated) panel
dimensions fixed at construction (`Adafruit_GFX(w, h)`); `rotation` is the
GFX rotation setting; `buffer` is the pixel buffer, `none` before
allocation (`buffer(NULL)` in the constructor); `contrast` is the byte
stored by `begin()` and reused by `dim()`. -/
structure Adafruit_SSD1306 where
  WIDTH : Nat
  HEIGHT : Nat
  rotation : Nat
  buffer : Option (List Nat)
  contrast : Nat
deriving DecidableEq

namespace Adafruit_SSD1306

/-- Modelled from the spec: `getRotation()` is inherited from Adafruit_GFX
(not under `src/`); GFX masks the rotation to two bits (`rotation & 3`) so
the value read back is always in {0,1,2,3}.  We keep a raw `Nat` in the
state and mask at the read. -/
def getRotation (d : Adafruit_SSD1306) : Nat :=
  d.rotation % 4

/-- Modelled from the spec: the logical width accessor `width()` from
Adafruit_GFX, "which themselves swap for r=1,3" (spec §4.1). -/
def width (d : Adafruit_SSD1306) : Nat :=
  match getRotation d with
  | 1 => d.HEIGHT
  | 3 => d.HEIGHT
  | _ => d.WIDTH

/-- Modelled from the spec: the logical height accessor `height()` from
Adafruit_GFX (swaps with width for rotations 1 and 3). -/
def height (d : Adafruit_SSD1306) : Nat :=
  match getRotation d with
  | 1 => d.WIDTH
  | 3 => d.WIDTH
  | _ => d.HEIGHT

/-- Size of the pixel buffer: `WIDTH * ((HEIGHT + 7) / 8)` bytes, the
expression used by `begin()`, `clearDisplay()` and `display()`. -/
def bufferSize (d : Adafruit_SSD1306) : Nat :=
  d.WIDTH * ((d.HEIGHT + 7) / 8)

/-- The bounds check performed by `drawPixel` and `getPixel`:
`(x >= 0) && (x < width()) && (y >= 0) && (y < height())`. -/
def inBounds (d : Adafruit_SSD1306) (x y : Int) : Prop :=
  0 ≤ x ∧ x < (width d : Int) ∧ 0 ≤ y ∧ y < (height d : Int)

instance instDecidableInBounds (d : Adafruit_SSD1306) (x y : Int) :
    Decidable (inBounds d x y) := by
  unfold inBounds
  infer_instance

/-- The rotation `switch` shared by `drawPixel` and `getPixel`: case 1
swaps `x`,`y` then sets `x = WIDTH - x - 1`; case 2 mirrors both axes;
case 3 swaps then sets `y = HEIGHT - y - 1`; any other rotation (only 0 is
possible) leaves the coordinates unchanged. -/
def transform (d : Adafruit_SSD1306) (x y : Int) : Int × Int :=
  match getRotation d with
  | 1 => ((d.WIDTH : Int) - y - 1, x)
  | 2 => ((d.WIDTH : Int) - x - 1, (d.HEIGHT : Int) - y - 1)
  | 3 => (y, (d.HEIGHT : Int) - x - 1)
  | _ => (x, y)

/-- Buffer address of a pixel: byte index `x + (y / 8) * WIDTH` and bit
position `y & 7` of the transformed coordinate.  The bounds check
guarantees the transformed coordinates are nonnegative, so converting to
`Nat` before the division and the mask agrees with the C `int16_t`
arithmetic. -/
def pixelAddr (d : Adafruit_SSD1306) (x y : Int) : Nat × Nat :=
  let p := transform d x y
  (p.1.toNat + (p.2.toNat / 8) * d.WIDTH, p.2.toNat &&& 7)

/-- `drawPixel(x, y, color)`: bounds check, rotate, then `|=` / `&= ~` /
`^=` the addressed bit according to the color `switch` (which has no
default branch).  Dereferencing a null buffer is undefined behaviour in
the C; the model leaves the state unchanged there, and every theorem
about an in-bounds draw assumes an allocated buffer.  The 8-bit
complement `~(1 << bit)` of the mask is written `255 ^^^ (1 <<< bit)`. -/
def drawPixel (d : Adafruit_SSD1306) (x y : Int) (color : Nat) :
    Adafruit_SSD1306 :=
  if inBounds d x y then
    match d.buffer with
    | none => d
    | some b =>
      let a := pixelAddr d x y
      if color = SSD1306_WHITE then
        { d with buffer := some (b.set a.1 (b.getD a.1 0 ||| (1 <<< a.2))) }
      else if color = SSD1306_BLACK then
        { d with buffer := some (b.set a.1 (b.getD a.1 0 &&& (255 ^^^ (1 <<< a.2)))) }
      else if color = SSD1306_INVERSE then
        { d with buffer := some (b.set a.1 (b.getD a.1 0 ^^^ (1 <<< a.2))) }
      else d
  else d

/-- `getPixel(x, y)`: bounds check, rotate, then test the addressed bit
(`buffer[x + (y / 8) * WIDTH] & (1 << (y & 7))` converted to `bool`);
out-of-bounds returns `false`. -/
def getPixel (d : Adafruit_SSD1306) (x y : Int) : Bool :=
  if inBounds d x y then
    match d.buffer with
    | none => false
    | some b => (b.getD (pixelAddr d x y).1 0 &&& (1 <<< (pixelAddr d x y).2)) != 0
  else false

/-- `clearDisplay()`: `memset(buffer, 0, WIDTH * ((HEIGHT + 7) / 8))`.
It performs no bus interaction, so its transaction trace is empty.
`memset` on a null buffer is undefined behaviour; the model keeps `none`
unchanged. -/
def clearDisplay (d : Adafruit_SSD1306) : Adafruit_SSD1306 × List I2CTxn :=
  ({ d with buffer := d.buffer.map (fun _ => List.replicate (bufferSize d) 0) }, [])

/-- Trace of `ssd1306_command1(c)`: one command-stream transaction whose
payload is the single byte `c`. -/
def ssd1306_command1 (c : Nat) : List I2CTxn :=
  [⟨I2CStream.cmd, [c]⟩]

/-- Trace of `ssd1306_commandList(c, n)`: one command-stream transaction
whose payload is the `n` listed bytes. -/
def ssd1306_commandList (cs : List Nat) : List I2CTxn :=
  [⟨I2CStream.cmd, cs⟩]

/-- COM-pin parameter chosen by `begin()` from the panel geometry
(default `0x02`, overridden by the recognised geometries). -/
def comPinsFor (W H : Nat) : Nat :=
  if W = 128 ∧ H = 32 then 0x02
  else if W = 128 ∧ H = 64 then 0x12
  else if W = 96 ∧ H = 16 then 0x02
  else 0x02

/-- Contrast parameter chosen by `begin()` from the panel geometry
(default `0x8F`, overridden by the recognised geometries). -/
def contrastFor (W H : Nat) : Nat :=
  if W = 128 ∧ H = 32 then 0x8F
  else if W = 128 ∧ H = 64 then 0xCF
  else if W = 96 ∧ H = 16 then 0xAF
  else 0x8F

/-- The fixed initialization command trace emitted by `begin()` after a
successful allocation: `init1`, multiplex payload, `init2`, charge-pump
payload, `init3`, COM-pins and contrast pairs, precharge pair, `init5`. -/
def beginTrace (d : Adafruit_SSD1306) : List I2CTxn :=
  ssd1306_commandList [SSD1306_DISPLAYOFF, SSD1306_SETDISPLAYCLOCKDIV, 0x80,
    SSD1306_SETMULTIPLEX]
  ++ ssd1306_command1 (d.HEIGHT - 1)
  ++ ssd1306_commandList [SSD1306_SETDISPLAYOFFSET, 0x0,
    SSD1306_SETSTARTLINE ||| 0x0, SSD1306_CHARGEPUMP]
  ++ ssd1306_command1 0x14
  ++ ssd1306_commandList [SSD1306_MEMORYMODE, 0x00, SSD1306_SEGREMAP ||| 0x1,
    SSD1306_COMSCANDEC]
  ++ ssd1306_command1 SSD1306_SETCOMPINS
  ++ ssd1306_command1 (comPinsFor d.WIDTH d.HEIGHT)
  ++ ssd1306_command1 SSD1306_SETCONTRAST
  ++ ssd1306_command1 (contrastFor d.WIDTH d.HEIGHT)
  ++ ssd1306_command1 SSD1306_SETPRECHARGE
  ++ ssd1306_command1 0xF1
  ++ ssd1306_commandList [SSD1306_SETVCOMDETECT, 0x40,
    SSD1306_DISPLAYALLON_RESUME, SSD1306_NORMALDISPLAY,
    SSD1306_DEACTIVATE_SCROLL, SSD1306_DISPLAYON]

/-- `begin()`: if the buffer is null and `malloc` fails
(`(!buffer) && !(buffer = malloc(...))`), return `false` having sent
nothing; otherwise allocate (if needed), `clearDisplay()`, store the
geometry-selected contrast, emit the initialization command sequence and
return `true`.  `mallocOk` is the environment's answer to the `malloc`
call; a fresh allocation's uninitialized contents are irrelevant because
`clearDisplay()` immediately zeroes them.  Modelled from the spec: the
splash blit (spec §4.4 step 3, "may be compiled out", `SSD1306_NO_SPLASH`;
its bitmap data and `drawBitmap` live outside `src/`) is omitted, i.e. the
no-splash configuration is modelled. -/
def begin (d : Adafruit_SSD1306) (mallocOk : Bool) :
    Bool × Adafruit_SSD1306 × List I2CTxn :=
  if d.buffer.isNone && !mallocOk then
    (false, d, [])
  else
    let allocated :=
      match d.buffer with
      | none => { d with buffer := some (List.replicate (bufferSize d) 0) }
      | some _ => d
    let cleared := (clearDisplay allocated).1
    (true, { cleared with contrast := contrastFor d.WIDTH d.HEIGHT }, beginTrace d)

/-- `display()`: emit `dlist1` (page window 0..0xFF, column start 0), the
column end `WIDTH - 1`, then one data-stream transaction carrying
`WIDTH * ((HEIGHT + 7) / 8)` bytes read from the buffer in order
(modelled by `take`; the buffer invariant makes this the whole buffer).
Streaming from a null buffer is undefined behaviour in the C; the model
sends an empty payload there. -/
def display (d : Adafruit_SSD1306) : Adafruit_SSD1306 × List I2CTxn :=
  (d, ssd1306_commandList [SSD1306_PAGEADDR, 0, 0xFF, SSD1306_COLUMNADDR, 0]
      ++ ssd1306_command1 (d.WIDTH - 1)
      ++ [⟨I2CStream.data,
        (match d.buffer with
         | none => []
         | some b => b.take (bufferSize d))⟩])

/-- `startscrollright(start, stop)`: scroll setup command bytes, each
group emitted exactly as the source groups them. -/
def startscrollright (d : Adafruit_SSD1306) (start stop : Nat) :
    Adafruit_SSD1306 × List I2CTxn :=
  (d, ssd1306_commandList [SSD1306_RIGHT_HORIZONTAL_SCROLL, 0x00]
      ++ ssd1306_command1 start
      ++ ssd1306_command1 0x00
      ++ ssd1306_command1 stop
      ++ ssd1306_commandList [0x00, 0xFF, SSD1306_ACTIVATE_SCROLL])

/-- `startscrollleft(start, stop)`. -/
def startscrollleft (d : Adafruit_SSD1306) (start stop : Nat) :
    Adafruit_SSD1306 × List I2CTxn :=
  (d, ssd1306_commandList [SSD1306_LEFT_HORIZONTAL_SCROLL, 0x00]
      ++ ssd1306_command1 start
      ++ ssd1306_command1 0x00
      ++ ssd1306_command1 stop
      ++ ssd1306_commandList [0x00, 0xFF, SSD1306_ACTIVATE_SCROLL])

/-- `startscrolldiagright(start, stop)`: sets the vertical scroll area to
the full panel height first. -/
def startscrolldiagright (d : Adafruit_SSD1306) (start stop : Nat) :
    Adafruit_SSD1306 × List I2CTxn :=
  (d, ssd1306_commandList [SSD1306_SET_VERTICAL_SCROLL_AREA, 0x00]
      ++ ssd1306_command1 d.HEIGHT
      ++ ssd1306_commandList [SSD1306_VERTICAL_AND_RIGHT_HORIZONTAL_SCROLL, 0x00]
      ++ ssd1306_command1 start
      ++ ssd1306_command1 0x00
      ++ ssd1306_command1 stop
      ++ ssd1306_commandList [0x01, SSD1306_ACTIVATE_SCROLL])

/-- `startscrolldiagleft(start, stop)`. -/
def startscrolldiagleft (d : Adafruit_SSD1306) (start stop : Nat) :
    Adafruit_SSD1306 × List I2CTxn :=
  (d, ssd1306_commandList [SSD1306_SET_VERTICAL_SCROLL_AREA, 0x00]
      ++ ssd1306_command1 d.HEIGHT
      ++ ssd1306_commandList [SSD1306_VERTICAL_AND_LEFT_HORIZONTAL_SCROLL, 0x00]
      ++ ssd1306_command1 start
      ++ ssd1306_command1 0x00
      ++ ssd1306_command1 stop
      ++ ssd1306_commandList [0x01, SSD1306_ACTIVATE_SCROLL])

/-- `stopscroll()`. -/
def stopscroll (d : Adafruit_SSD1306) : Adafruit_SSD1306 × List I2CTxn :=
  (d, ssd1306_command1 SSD1306_DEACTIVATE_SCROLL)

/-- `invertDisplay(i)`. -/
def invertDisplay (d : Adafruit_SSD1306) (i : Bool) :
    Adafruit_SSD1306 × List I2CTxn :=
  (d, ssd1306_command1 (if i then SSD1306_INVERTDISPLAY else SSD1306_NORMALDISPLAY))

/-- `dim(dim)`: set-contrast command followed by the payload `0` (dim) or
the stored `contrast` (bright). -/
def dim (d : Adafruit_SSD1306) (dimmed : Bool) :
    Adafruit_SSD1306 × List I2CTxn :=
  (d, ssd1306_command1 SSD1306_SETCONTRAST
      ++ ssd1306_command1 (if dimmed then 0 else d.contrast))

/-- The coordinate transform exactly as the spec words it (§4.1): r=0
identity; r=1 swap x,y then `x' = W-1-x`; r=2 `x' = W-1-x`, `y' = H-1-y`;
r=3 swap x,y then `y' = H-1-y`; W,H the unrotated native dimensions.
Reference definition for the refinement claim, to be compared with
`transform`. -/
def specTransform (d : Adafruit_SSD1306) (x y : Int) : Int × Int :=
  match getRotation d with
  | 0 => (x, y)
  | 1 =>
    let s := (y, x)
    ((d.WIDTH : Int) - 1 - s.1, s.2)
  | 2 => ((d.WIDTH : Int) - 1 - x, (d.HEIGHT : Int) - 1 - y)
  | 3 =>
    let s := (y, x)
    (s.1, (d.HEIGHT : Int) - 1 - s.2)
  | _ => (x, y)

/-- The buffer address exactly as the spec words it (§4.1): "bit index =
physical_x + (physical_y/8)*W; bit position = physical_y & 7", applied to
the spec's transform.  Reference definition for the refinement claim. -/
def specAddr (d : Adafruit_SSD1306) (x y : Int) : Nat × Nat :=
  let p := specTransform d x y
  (p.1.toNat + (p.2.toNat / 8) * d.WIDTH, p.2.toNat &&& 7)

/-- Byte `i` of the pixel buffer (`0` for an unallocated buffer or an
out-of-range index), convenience accessor for frame conditions. -/
def bufByte (d : Adafruit_SSD1306) (i : Nat) : Nat :=
  (d.buffer.getD []).getD i 0

end Adafruit_SSD1306

open Adafruit_SSD1306

/-- Changing only the buffer leaves the bounds check untouched. -/
theorem inBounds_setBuffer (d : Adafruit_SSD1306) (v : Option (List Nat))
    (x y : Int) : inBounds { d with buffer := v } x y ↔ inBounds d x y :=
  Iff.rfl

/-- Changing only the buffer leaves the pixel address untouched. -/
theorem pixelAddr_setBuffer (d : Adafruit_SSD1306) (v : Option (List Nat))
    (x y : Int) : pixelAddr { d with buffer := v } x y = pixelAddr d x y :=
  rfl

/-- The rotation read back is one of the four GFX rotations. -/
theorem getRotation_cases (d : Adafruit_SSD1306) :
    getRotation d = 0 ∨ getRotation d = 1 ∨ getRotation d = 2 ∨
      getRotation d = 3 := by
  unfold getRotation
  omega

/-- An in-bounds logical coordinate is transformed into an in-bounds
physical coordinate of the unrotated panel. -/
theorem transform_nonneg_lt (d : Adafruit_SSD1306) (x y : Int)
    (h : inBounds d x y) :
    0 ≤ (transform d x y).1 ∧ (transform d x y).1 < (d.WIDTH : Int) ∧
    0 ≤ (transform d x y).2 ∧ (transform d x y).2 < (d.HEIGHT : Int) := by
  obtain ⟨hx0, hx1, hy0, hy1⟩ := h
  rcases getRotation_cases d with h4 | h4 | h4 | h4 <;>
    (unfold width at hx1
     unfold height at hy1
     unfold transform
     rw [h4] at hx1 hy1 ⊢) <;>
    simp only at hx1 hy1 ⊢ <;>
    omega

/-- The byte index computed for an in-bounds coordinate is inside the
buffer, and the bit position is below 8. -/
theorem pixelAddr_lt (d : Adafruit_SSD1306) (x y : Int)
    (h : inBounds d x y) :
    (pixelAddr d x y).1 < bufferSize d ∧ (pixelAddr d x y).2 < 8 := by
  obtain ⟨h1, h2, h3, h4⟩ := transform_nonneg_lt d x y h
  unfold pixelAddr bufferSize
  simp only
  have hpx : (transform d x y).1.toNat < d.WIDTH := by omega
  have hpy : (transform d x y).2.toNat < d.HEIGHT := by omega
  constructor
  · have hq : (transform d x y).2.toNat / 8 + 1 ≤ (d.HEIGHT + 7) / 8 := by
      omega
    calc (transform d x y).1.toNat +
          ((transform d x y).2.toNat / 8) * d.WIDTH
        < ((transform d x y).2.toNat / 8 + 1) * d.WIDTH := by
          rw [add_one_mul]
          omega
      _ ≤ ((d.HEIGHT + 7) / 8) * d.WIDTH := Nat.mul_le_mul_right _ hq
      _ = d.WIDTH * ((d.HEIGHT + 7) / 8) := Nat.mul_comm _ _
  · have h7 : (7 : Nat) = 2 ^ 3 - 1 := by norm_num
    rw [h7, Nat.and_pow_two_sub_one_eq_mod]
    omega

/-- Unfolding `drawPixel` for an in-bounds coordinate and the SET color:
the addressed byte is OR-ed with the bit mask. -/
theorem drawPixel_white_eq (d : Adafruit_SSD1306) (b : List Nat)
    (hb : d.buffer = some b) (x y : Int) (h : inBounds d x y) :
    drawPixel d x y SSD1306_WHITE =
      { d with buffer := some (b.set (pixelAddr d x y).1
          (b.getD (pixelAddr d x y).1 0 ||| (1 <<< (pixelAddr d x y).2))) } := by
  unfold drawPixel
  rw [if_pos h, hb]
  rfl

/-- Unfolding `drawPixel` for an in-bounds coordinate and the CLEAR color:
the addressed byte is AND-ed with the 8-bit complement of the mask. -/
theorem drawPixel_black_eq (d : Adafruit_SSD1306) (b : List Nat)
    (hb : d.buffer = some b) (x y : Int) (h : inBounds d x y) :
    drawPixel d x y SSD1306_BLACK =
      { d with buffer := some (b.set (pixelAddr d x y).1
          (b.getD (pixelAddr d x y).1 0 &&& (255 ^^^ (1 <<< (pixelAddr d x y).2)))) } := by
  unfold drawPixel
  rw [if_pos h, hb]
  rfl

/-- Unfolding `getPixel` for an in-bounds coordinate. -/
theorem getPixel_eq (d : Adafruit_SSD1306) (b : List Nat)
    (hb : d.buffer = some b) (x y : Int) (h : inBounds d x y) :
    getPixel d x y =
      ((b.getD (pixelAddr d x y).1 0 &&& (1 <<< (pixelAddr d x y).2)) != 0) := by
  unfold getPixel
  rw [if_pos h, hb]

/-- The nonzero test of `v & (1 << k)` is exactly the `k`-th bit of `v`. -/
theorem and_shift_bne_zero (v k : Nat) :
    ((v &&& (1 <<< k)) != 0) = v.testBit k := by
  rw [Nat.one_shiftLeft]
  cases hbit : v.testBit k
  · have hz : v &&& 2 ^ k = 0 := by
      apply Nat.eq_of_testBit_eq
      intro i
      rw [Nat.testBit_and, Nat.zero_testBit]
      by_cases hik : k = i
      · subst hik
        rw [hbit]
        rfl
      · rw [Nat.testBit_two_pow_of_ne hik]
        exact Bool.and_false _
    simp [hz]
  · have ht : (v &&& 2 ^ k).testBit k = true := by
      rw [Nat.testBit_and, hbit, Nat.testBit_two_pow_self]
      rfl
    have hnz : v &&& 2 ^ k ≠ 0 := by
      intro h0
      rw [h0, Nat.zero_testBit] at ht
      exact Bool.noConfusion ht
    simp [hnz]

/-- Every bit of `255` below position 8 is set. -/
theorem testBit_255_of_lt (k : Nat) (hk : k < 8) :
    (255 : Nat).testBit k = true := by
  have h : (255 : Nat) = 2 ^ 8 - 1 := by norm_num
  rw [h, Nat.testBit_two_pow_sub_one]
  exact decide_eq_true hk

/-- Reading back the written index of `List.set`. -/
theorem getD_set_self (l : List Nat) (i : Nat) (hi : i < l.length)
    (v : Nat) : (l.set i v).getD i 0 = v := by
  simp [List.getD_eq_getElem?_getD, List.getElem?_set_self hi]

/-- Reading any other index of `List.set`. -/
theorem getD_set_ne (l : List Nat) (i j : Nat) (hij : i ≠ j) (v : Nat) :
    (l.set i v).getD j 0 = l.getD j 0 := by
  simp [List.getD_eq_getElem?_getD, List.getElem?_set_ne hij]

/-- Every byte of a zero-filled buffer reads back as zero. -/
theorem getD_replicate_zero (n i : Nat) :
    (List.replicate n (0 : Nat)).getD i 0 = 0 := by
  rw [List.getD_eq_getElem?_getD, List.getElem?_replicate]
  split <;> rfl

/-- The byte accessor on a state whose buffer was just replaced. -/
theorem bufByte_mk (d : Adafruit_SSD1306) (nb : List Nat) (i : Nat) :
    bufByte { d with buffer := some nb } i = nb.getD i 0 :=
  rfl

/-- The byte accessor on a state with an allocated buffer. -/
theorem bufByte_some (d : Adafruit_SSD1306) (b : List Nat)
    (hb : d.buffer = some b) (i : Nat) : bufByte d i = b.getD i 0 := by
  unfold bufByte
  rw [hb]
  rfl

/-- Reading a pixel from a state whose buffer was just replaced: the
bounds check and address are those of the original state. -/
theorem getPixel_setBuffer (d : Adafruit_SSD1306) (nb : List Nat)
    (x y : Int) (h : inBounds d x y) :
    getPixel { d with buffer := some nb } x y =
      ((nb.getD (pixelAddr d x y).1 0 &&& (1 <<< (pixelAddr d x y).2)) != 0) := by
  have he := getPixel_eq { d with buffer := some nb } nb rfl x y h
  rw [pixelAddr_setBuffer] at he
  exact he

/-- Claim C1: for every logical coordinate inside `[0,width()) ×
[0,height())` under the current rotation (every `r` in {0,1,2,3} arises as
`getRotation` of some state), `drawPixel` with WHITE (resp. BLACK)
followed by `getPixel` at the same coordinate and rotation returns `true`
(resp. `false`), and every buffer bit other than the one addressed by the
transformed coordinate is unchanged by the `drawPixel` call. -/
theorem drawPixel_getPixel_roundtrip (d : Adafruit_SSD1306) (b : List Nat)
    (x y : Int) (hb : d.buffer = some b) (hlen : b.length = bufferSize d)
    (h : inBounds d x y) :
    getPixel (drawPixel d x y SSD1306_WHITE) x y = true ∧
    getPixel (drawPixel d x y SSD1306_BLACK) x y = false ∧
    ∀ c : Nat, c = SSD1306_WHITE ∨ c = SSD1306_BLACK →
      ∀ i k : Nat, k < 8 → (i, k) ≠ pixelAddr d x y →
        (bufByte (drawPixel d x y c) i).testBit k =
          (bufByte d i).testBit k := by
  obtain ⟨hidx, hbit⟩ := pixelAddr_lt d x y h
  have hw := drawPixel_white_eq d b hb x y h
  have hbl := drawPixel_black_eq d b hb x y h
  have hidx' : (pixelAddr d x y).1 < b.length := by
    rw [hlen]
    exact hidx
  refine ⟨?_, ?_, ?_⟩
  · rw [hw, getPixel_setBuffer d _ x y h]
    rw [getD_set_self _ _ hidx', and_shift_bne_zero, Nat.testBit_or,
      Nat.one_shiftLeft, Nat.testBit_two_pow_self, Bool.or_true]
  · rw [hbl, getPixel_setBuffer d _ x y h]
    rw [getD_set_self _ _ hidx', and_shift_bne_zero, Nat.testBit_and,
      Nat.testBit_xor, Nat.one_shiftLeft, Nat.testBit_two_pow_self,
      testBit_255_of_lt _ hbit]
    simp
  · intro c hc i k hk hne
    have hne' : i = (pixelAddr d x y).1 → k ≠ (pixelAddr d x y).2 := by
      intro hi hkk
      apply hne
      rw [hi, hkk]
    rcases hc with rfl | rfl
    · rw [hw, bufByte_mk, bufByte_some d b hb]
      by_cases hi : i = (pixelAddr d x y).1
      · rw [hi, getD_set_self _ _ hidx', Nat.testBit_or, Nat.one_shiftLeft,
          Nat.testBit_two_pow_of_ne (Ne.symm (hne' hi)), Bool.or_false]
      · rw [getD_set_ne _ _ _ (Ne.symm hi)]
    · rw [hbl, bufByte_mk, bufByte_some d b hb]
      by_cases hi : i = (pixelAddr d x y).1
      · rw [hi, getD_set_self _ _ hidx', Nat.testBit_and, Nat.testBit_xor,
          Nat.one_shiftLeft, Nat.testBit_two_pow_of_ne (Ne.symm (hne' hi)),
          testBit_255_of_lt k hk]
        simp
      · rw [getD_set_ne _ _ _ (Ne.symm hi)]

/-- Witness for C1 at a concrete 8×8 panel, rotation 1, pixel (2,3). -/
theorem drawPixel_getPixel_roundtrip_witness :
    getPixel (drawPixel ⟨8, 8, 1, some (List.replicate 8 0), 0⟩ 2 3
      SSD1306_WHITE) 2 3 = true ∧
    getPixel (drawPixel ⟨8, 8, 1, some (List.replicate 8 0), 0⟩ 2 3
      SSD1306_BLACK) 2 3 = false ∧
    (bufByte (drawPixel ⟨8, 8, 1, some (List.replicate 8 0), 0⟩ 2 3
      SSD1306_WHITE) 0).testBit 0 =
      (bufByte ⟨8, 8, 1, some (List.replicate 8 0), 0⟩ 0).testBit 0 :=
  have hc := drawPixel_getPixel_roundtrip ⟨8, 8, 1, some (List.replicate 8 0), 0⟩
    (List.replicate 8 0) 2 3 rfl (by decide) (by decide)
  ⟨hc.1, hc.2.1, hc.2.2 SSD1306_WHITE (Or.inl rfl) 0 0 (by decide) (by decide)⟩

/-- Claim C4: for a coordinate outside the logical bounds under the
current rotation, `drawPixel` leaves the whole state unchanged for every
color and `getPixel` returns `false`; neither signals an error (both are
total). -/
theorem out_of_bounds_noop (d : Adafruit_SSD1306) (x y : Int) (c : Nat)
    (h : ¬ inBounds d x y) :
    drawPixel d x y c = d ∧ getPixel d x y = false := by
  unfold drawPixel getPixel
  rw [if_neg h, if_neg h]
  exact ⟨rfl, rfl⟩

/-- Witness for C4 at x = -1 and at x = width. -/
theorem out_of_bounds_noop_witness :
    (drawPixel ⟨8, 8, 0, some (List.replicate 8 0), 0⟩ (-1) 0 1 =
      ⟨8, 8, 0, some (List.replicate 8 0), 0⟩ ∧
      getPixel ⟨8, 8, 0, some (List.replicate 8 0), 0⟩ (-1) 0 = false) ∧
    (drawPixel ⟨8, 8, 0, some (List.replicate 8 0), 0⟩ 8 2 0 =
      ⟨8, 8, 0, some (List.replicate 8 0), 0⟩ ∧
      getPixel ⟨8, 8, 0, some (List.replicate 8 0), 0⟩ 8 2 = false) :=
  ⟨out_of_bounds_noop ⟨8, 8, 0, some (List.replicate 8 0), 0⟩ (-1) 0 1
      (by decide),
   out_of_bounds_noop ⟨8, 8, 0, some (List.replicate 8 0), 0⟩ 8 2 0
      (by decide)⟩

/-- Claim C10: a color that is none of WHITE, BLACK or INVERSE falls
through the color switch (which has no default branch) and leaves the
state unchanged, for every coordinate. -/
theorem drawPixel_unknown_color_noop (d : Adafruit_SSD1306) (x y : Int)
    (c : Nat) (h1 : c ≠ SSD1306_WHITE) (h2 : c ≠ SSD1306_BLACK)
    (h3 : c ≠ SSD1306_INVERSE) : drawPixel d x y c = d := by
  unfold drawPixel
  by_cases h : inBounds d x y
  · rw [if_pos h]
    rcases hbuf : d.buffer with _ | b
    · rfl
    · simp only [if_neg h1, if_neg h2, if_neg h3]
  · rw [if_neg h]

/-- Witness for C10 with color 7 at an in-bounds coordinate. -/
theorem drawPixel_unknown_color_noop_witness :
    drawPixel ⟨8, 8, 0, some (List.replicate 8 0), 0⟩ 1 1 7 =
      ⟨8, 8, 0, some (List.replicate 8 0), 0⟩ :=
  drawPixel_unknown_color_noop ⟨8, 8, 0, some (List.replicate 8 0), 0⟩ 1 1 7
    (by decide) (by decide) (by decide)

/-- Claim C8: at rotation 2 the coordinate transform is an involution:
applying it twice returns the original coordinate, for every (x,y). -/
theorem transform_rot2_involutive (d : Adafruit_SSD1306) (x y : Int)
    (h : getRotation d = 2) :
    transform d (transform d x y).1 (transform d x y).2 = (x, y) := by
  unfold transform
  rw [h]
  show ((d.WIDTH : Int) - ((d.WIDTH : Int) - x - 1) - 1,
    (d.HEIGHT : Int) - ((d.HEIGHT : Int) - y - 1) - 1) = (x, y)
  rw [Prod.mk.injEq]
  constructor <;> omega

/-- Witness for C8 on a 128×64 panel at (3,5). -/
theorem transform_rot2_involutive_witness :
    transform ⟨128, 64, 2, none, 0⟩
      (transform ⟨128, 64, 2, none, 0⟩ 3 5).1
      (transform ⟨128, 64, 2, none, 0⟩ 3 5).2 = (3, 5) :=
  transform_rot2_involutive ⟨128, 64, 2, none, 0⟩ 3 5 rfl

/-- Reading a pixel out of bounds from a state whose buffer was just
replaced still returns false. -/
theorem getPixel_setBuffer_out (d : Adafruit_SSD1306) (nb : List Nat)
    (x y : Int) (h : ¬ inBounds d x y) :
    getPixel { d with buffer := some nb } x y = false := by
  unfold getPixel
  exact if_neg h

/-- Claim C6: `clearDisplay()` sets every one of the
`WIDTH * ((HEIGHT + 7) / 8)` buffer bytes to zero, performs no bus
interaction, and afterwards `getPixel` returns false at every coordinate
(in particular every in-bounds one), whatever rotation the state has. -/
theorem clearDisplay_zeroes (d : Adafruit_SSD1306) (b : List Nat)
    (hb : d.buffer = some b) :
    (clearDisplay d).1.buffer = some (List.replicate (bufferSize d) 0) ∧
    (clearDisplay d).2 = [] ∧
    ∀ x y : Int, getPixel (clearDisplay d).1 x y = false := by
  have hstate : (clearDisplay d).1 =
      { d with buffer := some (List.replicate (bufferSize d) 0) } := by
    unfold clearDisplay
    rw [hb]
    rfl
  refine ⟨?_, rfl, ?_⟩
  · rw [hstate]
  · intro x y
    rw [hstate]
    by_cases h : inBounds d x y
    · rw [getPixel_setBuffer d _ x y h, getD_replicate_zero, Nat.zero_and]
      rfl
    · exact getPixel_setBuffer_out d _ x y h

/-- Witness for C6 on an 8×8 panel, rotation 3, dirty buffer. -/
theorem clearDisplay_zeroes_witness :
    (clearDisplay ⟨8, 8, 3, some (List.replicate 8 255), 0⟩).1.buffer =
      some (List.replicate (bufferSize ⟨8, 8, 3, some (List.replicate 8 255), 0⟩) 0) ∧
    getPixel (clearDisplay ⟨8, 8, 3, some (List.replicate 8 255), 0⟩).1 1 2 = false :=
  have hc := clearDisplay_zeroes ⟨8, 8, 3, some (List.replicate 8 255), 0⟩
    (List.replicate 8 255) rfl
  ⟨hc.1, hc.2.2 1 2⟩

set_option maxRecDepth 100000 in
/-- Counterexample to claim C2 as stated: on a 128×64 panel at rotation 0,
setting pixel (10,20) white after a clear does NOT leave byte index 330
with bit 4 set — that byte stays zero; the bit lands in byte index 266
(integer division: 10 + (20/8)*128 = 10 + 2*128 = 266). -/
theorem drawPixel_scenario_byte330_counterexample :
    bufByte (drawPixel
      (clearDisplay ⟨128, 64, 0, some (List.replicate 1024 0), 0⟩).1
      10 20 SSD1306_WHITE) 330 = 0 ∧
    (bufByte (drawPixel
      (clearDisplay ⟨128, 64, 0, some (List.replicate 1024 0), 0⟩).1
      10 20 SSD1306_WHITE) 330).testBit 4 = false ∧
    bufByte (drawPixel
      (clearDisplay ⟨128, 64, 0, some (List.replicate 1024 0), 0⟩).1
      10 20 SSD1306_WHITE) 266 = 16 := by
  refine ⟨?_, ?_, ?_⟩ <;> decide

set_option maxRecDepth 100000 in
/-- Claim C2 (amended): the transform of `drawPixel`/`getPixel` is exactly
the spec's rotation mapping, the addressed byte is
`physical_x + (physical_y/8)*W` with bit position `physical_y & 7`, and on
a 128×64 panel at rotation 0, setting pixel (10,20) white after a clear
leaves byte index 266 (= 10 + (20/8)*128 under integer division) with bit
4 set and every other buffer bit zero. -/
theorem coordinate_transform_spec_match :
    (∀ (d : Adafruit_SSD1306) (x y : Int),
      transform d x y = specTransform d x y) ∧
    (∀ (d : Adafruit_SSD1306) (x y : Int),
      pixelAddr d x y = specAddr d x y) ∧
    (drawPixel (clearDisplay ⟨128, 64, 0, some (List.replicate 1024 0), 0⟩).1
        10 20 SSD1306_WHITE).buffer =
      some ((List.replicate 1024 0).set 266 (1 <<< 4)) := by
  have h1 : ∀ (d : Adafruit_SSD1306) (x y : Int),
      transform d x y = specTransform d x y := by
    intro d x y
    unfold transform specTransform
    rcases getRotation_cases d with h | h | h | h <;> rw [h]
    · show ((d.WIDTH : Int) - y - 1, x) = ((d.WIDTH : Int) - 1 - y, x)
      rw [Prod.mk.injEq]
      constructor <;> omega
    · show ((d.WIDTH : Int) - x - 1, (d.HEIGHT : Int) - y - 1) =
        ((d.WIDTH : Int) - 1 - x, (d.HEIGHT : Int) - 1 - y)
      rw [Prod.mk.injEq]
      constructor <;> omega
    · show (y, (d.HEIGHT : Int) - x - 1) = (y, (d.HEIGHT : Int) - 1 - x)
      rw [Prod.mk.injEq]
      constructor <;> omega
  refine ⟨h1, ?_, by decide⟩
  intro d x y
  unfold pixelAddr specAddr
  rw [h1 d x y]

/-- Claim C3: for every buffer content, `display()` emits the page-window
command (start 0, end 0xFF) and column-start 0 in one command transaction,
the column end `WIDTH - 1` in a second, and then exactly
`WIDTH * ((HEIGHT + 7) / 8)` data bytes — the whole buffer in order — in a
single data-stream transaction; the state is untouched.  (`width` here is
the native panel width `WIDTH`, the quantity `display()` uses.) -/
theorem display_trace_spec (d : Adafruit_SSD1306) (b : List Nat)
    (hb : d.buffer = some b) (hlen : b.length = bufferSize d) :
    (display d).2 =
      [⟨I2CStream.cmd, [SSD1306_PAGEADDR, 0, 0xFF, SSD1306_COLUMNADDR, 0]⟩,
       ⟨I2CStream.cmd, [d.WIDTH - 1]⟩,
       ⟨I2CStream.data, b⟩] ∧
    b.length = d.WIDTH * ((d.HEIGHT + 7) / 8) ∧
    (display d).1 = d := by
  refine ⟨?_, hlen, rfl⟩
  have ht : b.take (bufferSize d) = b := by
    rw [← hlen]
    exact List.take_length b
  unfold display ssd1306_commandList ssd1306_command1
  simp only [hb, ht]
  rfl

/-- Witness for C3 on an 8×8 panel with a nonzero buffer. -/
theorem display_trace_spec_witness :
    (display ⟨8, 8, 0, some (List.replicate 8 3), 0⟩).2 =
      [⟨I2CStream.cmd, [SSD1306_PAGEADDR, 0, 0xFF, SSD1306_COLUMNADDR, 0]⟩,
       ⟨I2CStream.cmd, [8 - 1]⟩,
       ⟨I2CStream.data, List.replicate 8 3⟩] ∧
    (List.replicate 8 (3 : Nat)).length = 8 * ((8 + 7) / 8) ∧
    (display ⟨8, 8, 0, some (List.replicate 8 3), 0⟩).1 =
      ⟨8, 8, 0, some (List.replicate 8 3), 0⟩ :=
  display_trace_spec ⟨8, 8, 0, some (List.replicate 8 3), 0⟩
    (List.replicate 8 3) rfl (by decide)

/-- Claim C5: if the buffer is null and the allocation fails, `begin()`
returns false having emitted no transaction at all; if the allocation
succeeds, or the buffer was already allocated, `begin()` returns true. -/
theorem begin_alloc_failure (d : Adafruit_SSD1306) (m : Bool) :
    (d.buffer = none → begin d false = (false, d, [])) ∧
    (d.buffer = none → m = true → (begin d m).1 = true) ∧
    (∀ b : List Nat, d.buffer = some b → (begin d m).1 = true) := by
  refine ⟨?_, ?_, ?_⟩
  · intro hnull
    unfold begin
    rw [hnull]
    rfl
  · intro hnull hm
    unfold begin
    rw [hnull, hm]
    rfl
  · intro b hbuf
    unfold begin
    rw [hbuf]
    cases m <;> rfl

/-- Witness for C5: allocation failure on a null buffer returns false with
an empty trace; a successful allocation and an already-allocated buffer
both return true. -/
theorem begin_alloc_failure_witness :
    begin ⟨8, 8, 0, none, 0⟩ false = (false, ⟨8, 8, 0, none, 0⟩, []) ∧
    (begin ⟨8, 8, 0, none, 0⟩ true).1 = true ∧
    (begin ⟨8, 8, 0, some (List.replicate 8 0), 0⟩ false).1 = true :=
  ⟨(begin_alloc_failure ⟨8, 8, 0, none, 0⟩ false).1 rfl,
   (begin_alloc_failure ⟨8, 8, 0, none, 0⟩ true).2.1 rfl rfl,
   (begin_alloc_failure ⟨8, 8, 0, some (List.replicate 8 0), 0⟩ false).2.2
     (List.replicate 8 0) rfl⟩

/-- Claim C7: `dim(true)` emits the set-contrast command followed by
payload 0; `dim(false)` emits it followed by the stored contrast byte,
which `begin()` set from the geometry (0xCF for a 128×64 panel) and which
`dim` references without recomputing (the state is unchanged). -/
theorem dim_contrast_spec (d : Adafruit_SSD1306) (m : Bool) :
    dim d true = (d, [⟨I2CStream.cmd, [SSD1306_SETCONTRAST]⟩,
      ⟨I2CStream.cmd, [0]⟩]) ∧
    dim d false = (d, [⟨I2CStream.cmd, [SSD1306_SETCONTRAST]⟩,
      ⟨I2CStream.cmd, [d.contrast]⟩]) ∧
    (d.WIDTH = 128 → d.HEIGHT = 64 → (begin d m).1 = true →
      (begin d m).2.1.contrast = 0xCF) := by
  refine ⟨rfl, rfl, ?_⟩
  intro hW hH hok
  unfold begin at hok ⊢
  by_cases hcond : (d.buffer.isNone && !m) = true
  · rw [if_pos hcond] at hok
    simp at hok
  · rw [if_neg hcond]
    show contrastFor d.WIDTH d.HEIGHT = 0xCF
    rw [hW, hH]
    decide

/-- Witness for C7: the two dim traces on a state with stored contrast
0xCF, and the contrast stored by a successful `begin()` at 128×64. -/
theorem dim_contrast_spec_witness :
    dim ⟨128, 64, 0, some (List.replicate 1024 0), 0xCF⟩ true =
      (⟨128, 64, 0, some (List.replicate 1024 0), 0xCF⟩,
        [⟨I2CStream.cmd, [SSD1306_SETCONTRAST]⟩, ⟨I2CStream.cmd, [0]⟩]) ∧
    dim ⟨128, 64, 0, some (List.replicate 1024 0), 0xCF⟩ false =
      (⟨128, 64, 0, some (List.replicate 1024 0), 0xCF⟩,
        [⟨I2CStream.cmd, [SSD1306_SETCONTRAST]⟩,
         ⟨I2CStream.cmd, [(⟨128, 64, 0, some (List.replicate 1024 0), 0xCF⟩ :
            Adafruit_SSD1306).contrast]⟩]) ∧
    (begin ⟨128, 64, 0, some (List.replicate 1024 0), 0⟩ false).2.1.contrast
      = 0xCF :=
  ⟨(dim_contrast_spec ⟨128, 64, 0, some (List.replicate 1024 0), 0xCF⟩ false).1,
   (dim_contrast_spec ⟨128, 64, 0, some (List.replicate 1024 0), 0xCF⟩ false).2.1,
   (dim_contrast_spec ⟨128, 64, 0, some (List.replicate 1024 0), 0⟩ false).2.2
     rfl rfl rfl⟩

/-- Claim C9: the device control operations `invertDisplay`, `dim`, the
four scroll starters and `stopscroll` leave the driver state — in
particular the pixel buffer — untouched, and every transaction each emits
is on the command stream. -/
theorem device_ops_no_buffer_mutation (d : Adafruit_SSD1306) (i m : Bool)
    (start stop : Nat) :
    ((invertDisplay d i).1 = d ∧
      ((invertDisplay d i).2.all fun t => t.stream == I2CStream.cmd) = true) ∧
    ((dim d m).1 = d ∧
      ((dim d m).2.all fun t => t.stream == I2CStream.cmd) = true) ∧
    ((startscrollright d start stop).1 = d ∧
      ((startscrollright d start stop).2.all
        fun t => t.stream == I2CStream.cmd) = true) ∧
    ((startscrollleft d start stop).1 = d ∧
      ((startscrollleft d start stop).2.all
        fun t => t.stream == I2CStream.cmd) = true) ∧
    ((startscrolldiagright d start stop).1 = d ∧
      ((startscrolldiagright d start stop).2.all
        fun t => t.stream == I2CStream.cmd) = true) ∧
    ((startscrolldiagleft d start stop).1 = d ∧
      ((startscrolldiagleft d start stop).2.all
        fun t => t.stream == I2CStream.cmd) = true) ∧
    ((stopscroll d).1 = d ∧
      ((stopscroll d).2.all fun t => t.stream == I2CStream.cmd) = true) :=
  ⟨⟨rfl, rfl⟩, ⟨rfl, rfl⟩, ⟨rfl, rfl⟩, ⟨rfl, rfl⟩, ⟨rfl, rfl⟩, ⟨rfl, rfl⟩,
   ⟨rfl, rfl⟩⟩
